import Mathlib

/-!
Verification development for the artifact-checker repository (src/main.py).

The program tracks the latest published version of Maven artifacts: it reads a
baseline from a sqlite table, resolves the latest version from Maven Central,
writes the new baseline, and prints a notification payload.  The embedding
below translates each function of src/main.py into a pure Lean function.
External effects are passed in as oracles:

* the network fetch and XML parse inside get_latest_version are summarised by
  a `ResolveResult` per call (indexed by artifact and attempt number);
* each sqlite operation (connect + execute) is summarised by a `DbFault`
  drawn from an oracle indexed by the running count of sqlite operations;
* the two configuration loaders are given their successfully parsed contents.

Printed lines, emails handed to SES, notification payloads, REPLACE writes and
get_latest_version calls are recorded in the threaded state `St` so that the
reporting behaviour of the program can be stated.  A sqlite error raised while
opening a connection is modelled as an exception (`Except.error`) because the
source's `finally: if conn:` clause then touches the unbound local `conn`,
raising an UnboundLocalError that no caller catches; sqlite errors raised
after a successful connect are caught by the `except sqlite3.Error` clauses
and only print a message.
-/

/-- Python truthiness of an optional string: None and the empty string are falsy. -/
def pyTruthy : Option String → Bool
  | none => false
  | some s => !(s == "")

/-- Rendering of an optional string inside a Python f-string: None prints as the text None. -/
def pyStr : Option String → String
  | none => "None"
  | some s => s

/-- One row of the sqlite table versions (src/main.py lines 32-39); the version column is nullable because update_current_version_in_db can be handed None (line 188). -/
structure Row where
  group_id : String
  artifact_id : String
  version : Option String
deriving DecidableEq

/-- The sqlite database file: whether the versions table exists yet, and its rows. -/
structure DB where
  schema : Bool
  rows : List Row
deriving DecidableEq

/-- Environment outcome of one sqlite operation: everything succeeds; the sqlite3.connect call raises sqlite3.Error with message e; or an execute after a successful connect raises sqlite3.Error with message e. -/
inductive DbFault where
  | ok : DbFault
  | connectFail : String → DbFault
  | execFail : String → DbFault
deriving DecidableEq

/-- Environment outcome of one metadata fetch inside get_latest_version: the request and parse succeeded and the latest element carries text t (t = none when the element is empty); the request raised requests.exceptions.RequestException with message e; or parsing raised AttributeError or ET.ParseError with message e. -/
inductive ResolveResult where
  | found : Option String → ResolveResult
  | fetchError : String → ResolveResult
  | parseError : String → ResolveResult
deriving DecidableEq

/-- The value get_latest_version returns for a given environment outcome (None on any failure, src/main.py lines 18-23). -/
def resolvedText : ResolveResult → Option String
  | .found t => t
  | .fetchError _ => none
  | .parseError _ => none

/-- Program state threaded through the embedding: the database file, the lines printed so far, the emails handed to SES by send_email, the notification payloads (subject, body) printed by main at lines 180-181, the number of REPLACE writes executed, the number of get_latest_version invocations, and the number of sqlite operations begun so far (the index into the fault oracle). -/
structure St where
  db : DB
  out : List String
  emails : List (String × String × String × String)
  notified : List (String × String)
  upserts : Nat
  rcalls : Nat
  dbops : Nat
deriving DecidableEq

/-- Fresh program state over a given database file. -/
def initSt (db : DB) : St :=
  { db := db, out := [], emails := [], notified := [], upserts := 0, rcalls := 0, dbops := 0 }

/-- Final state of a run, whether it returned normally or aborted with an uncaught exception. -/
def finalSt : Except St St → St
  | .ok s => s
  | .error s => s

/-- Whether a run returned normally (true) or aborted with an uncaught exception (false). -/
def runOk : Except St St → Bool
  | .ok _ => true
  | .error _ => false

/-- Fault oracle under which every sqlite operation succeeds. -/
def noFault : Nat → DbFault := fun _ => DbFault.ok

/-- The WHERE clause group_id = ? AND artifact_id = ? used by the SELECT of src/main.py line 41 and by the REPLACE conflict rule. -/
def keyMatch (g a : String) (r : Row) : Bool :=
  r.group_id == g && r.artifact_id == a

/-- The row the SELECT of src/main.py line 41 returns for a key, if any (first matching row). -/
def findRow (rows : List Row) (g a : String) : Option Row :=
  rows.find? (keyMatch g a)

/-- The value get_current_version_from_db reads for a key when the table exists: the version of the matching row, with a NULL version read back as None exactly like a missing row (Python returns result[0], src/main.py lines 42-46). -/
def storedVersion (rows : List Row) (g a : String) : Option String :=
  match findRow rows g a with
  | some r => r.version
  | none => none

/-- Effect of REPLACE INTO versions (src/main.py line 67): the conflicting row for the primary key (group_id, artifact_id) is deleted and the new row inserted. -/
def replaceRow (rows : List Row) (g a : String) (v : Option String) : List Row :=
  (rows.filter fun r => !keyMatch g a r) ++ [{ group_id := g, artifact_id := a, version := v }]

/-- Embeds get_latest_version (src/main.py lines 9-23).  The network fetch and XML parse are external; r is their outcome for this call.  On failure an error line naming the cause is printed and None returned, mirroring the two except clauses; a found latest element with no text returns None silently. -/
def get_latest_version (r : ResolveResult) (s : St) : Option String × St :=
  match r with
  | .found t => (t, { s with rcalls := s.rcalls + 1 })
  | .fetchError e =>
      (none, { s with rcalls := s.rcalls + 1, out := s.out ++ ["Error fetching metadata: " ++ e] })
  | .parseError e =>
      (none, { s with rcalls := s.rcalls + 1, out := s.out ++ ["Error parsing metadata: " ++ e] })

/-- Embeds get_current_version_from_db (src/main.py lines 25-52).  CREATE TABLE IF NOT EXISTS runs before the SELECT, so the schema self-creates.  If sqlite3.connect raises, the except clause prints the database error but the finally clause then reads the unbound local conn, raising an uncaught UnboundLocalError (modelled as Except.error).  A sqlite error after connect (modelled at the first execute, costing no state change) is caught: the error is printed and None returned. -/
def get_current_version_from_db (g a : String) (faults : Nat → DbFault) (s : St) :
    Except St (Option String × St) :=
  match faults s.dbops with
  | .connectFail e =>
      .error { s with dbops := s.dbops + 1, out := s.out ++ ["Database error: " ++ e] }
  | .execFail e =>
      .ok (none, { s with dbops := s.dbops + 1, out := s.out ++ ["Database error: " ++ e] })
  | .ok =>
      .ok (storedVersion s.db.rows g a,
        { s with db := { schema := true, rows := s.db.rows }, dbops := s.dbops + 1 })

/-- Embeds update_current_version_in_db (src/main.py lines 54-73).  Same connection-failure behaviour as the getter (uncaught UnboundLocalError from the finally clause).  A sqlite error after connect is caught and printed, leaving the database unchanged; on success the REPLACE commits. -/
def update_current_version_in_db (g a : String) (version : Option String)
    (faults : Nat → DbFault) (s : St) : Except St St :=
  match faults s.dbops with
  | .connectFail e =>
      .error { s with dbops := s.dbops + 1, out := s.out ++ ["Database error: " ++ e] }
  | .execFail e =>
      .ok { s with dbops := s.dbops + 1, out := s.out ++ ["Database error: " ++ e] }
  | .ok =>
      .ok { s with db := { schema := true, rows := replaceRow s.db.rows g a version },
                   dbops := s.dbops + 1, upserts := s.upserts + 1 }

/-- Embeds check_for_new_version (src/main.py lines 75-84): reads the stored baseline, fetches the latest version (attempt 0 of this artifact), and returns the latest version when it is truthy and either differs from a truthy baseline or the baseline is None; otherwise returns None. -/
def check_for_new_version (g a : String) (net : Nat → ResolveResult)
    (faults : Nat → DbFault) (s : St) : Except St (Option String × St) :=
  match get_current_version_from_db g a faults s with
  | .error sE => .error sE
  | .ok (current_version, s1) =>
      let res := get_latest_version (net 0) s1
      let latest_version := res.1
      let s2 := res.2
      if pyTruthy latest_version && pyTruthy current_version && latest_version != current_version then
        .ok (latest_version, s2)
      else if pyTruthy latest_version && current_version.isNone then
        .ok (latest_version, s2)
      else
        .ok (none, s2)

/-- Embeds send_email (src/main.py lines 86-109): hands the message to SES and prints the success line.  The only call site, main line 178, is commented out in the source, so main never invokes this. -/
def send_email (sender_email receiver_email subject body : String) (s : St) : St :=
  { s with emails := s.emails ++ [(sender_email, receiver_email, subject, body)],
           out := s.out ++ ["Email notification sent successfully. Message ID: 0"] }

/-- Embeds print_current_versions (src/main.py lines 123-141).  Unlike the getter and the updater, this function has no CREATE TABLE IF NOT EXISTS: when the versions table does not exist the SELECT raises sqlite3.Error (no such table), which is caught and printed; only then is no dump produced.  A connection failure again escapes as an UnboundLocalError from the finally clause. -/
def print_current_versions (faults : Nat → DbFault) (s : St) : Except St St :=
  match faults s.dbops with
  | .connectFail e =>
      .error { s with dbops := s.dbops + 1, out := s.out ++ ["Database error: " ++ e] }
  | .execFail e =>
      .ok { s with dbops := s.dbops + 1, out := s.out ++ ["Database error: " ++ e] }
  | .ok =>
      if s.db.schema then
        if s.db.rows.isEmpty then
          .ok { s with dbops := s.dbops + 1,
                       out := s.out ++ ["No artifact versions found in the database.", ""] }
        else
          .ok { s with dbops := s.dbops + 1,
                       out := s.out ++ ["Current Artifact Versions:"]
                         ++ s.db.rows.map
                              (fun r => "- " ++ r.group_id ++ ":" ++ r.artifact_id ++ " - " ++ pyStr r.version)
                         ++ [""] }
      else
        .ok { s with dbops := s.dbops + 1,
                     out := s.out ++ ["Database error: no such table: versions"] }

/-- Environment outcome of reading artifacts.json: the file is missing, holds invalid JSON, or parses to a list of entries (each entry the values of .get on group_id and artifact_id, None when the key is absent). -/
inductive CatalogLoad where
  | missing : CatalogLoad
  | badJson : CatalogLoad
  | loaded : List (Option String × Option String) → CatalogLoad

/-- Embeds load_artifacts_from_json (src/main.py lines 111-121): returns the parsed entries, or prints an error and returns the empty list when the file is missing or invalid. -/
def load_artifacts_from_json (j : CatalogLoad) : List (Option String × Option String) × List String :=
  match j with
  | .missing => ([], ["Error: artifacts.json not found."])
  | .badJson => ([], ["Error: Invalid JSON in artifacts.json."])
  | .loaded entries => (entries, [])

/-- Modelled from the spec: main (src/main.py line 148) calls load_email_settings, whose definition is not part of src/main.py.  Per the spec (section 7), an unusable notification configuration is detected once, up front, and is process-fatal before any artifact processing begins.  We model the loader as returning the externally supplied configuration: none when it cannot be loaded, otherwise the loaded key-value settings. -/
def load_email_settings (cfg : Option (List (String × String))) : Option (List (String × String)) :=
  cfg

/-- Python truthiness of the loaded email settings at src/main.py line 150: None and an empty settings object are falsy. -/
def settingsTruthy : Option (List (String × String)) → Bool
  | none => false
  | some l => !l.isEmpty

/-- Embeds one iteration of the for loop of main (src/main.py lines 156-189) for one catalog entry.  Entries missing a truthy group_id or artifact_id are skipped with a warning.  Otherwise check_for_new_version runs; a truthy result prints the new-version line, REPLACEs the baseline, builds the notification subject and body (the body re-reads the database after the REPLACE, line 176) and prints them (the send_email call at line 178 is commented out in the source).  A falsy result prints the no-new-version line and, when the stored baseline reads back as None, fetches the latest version a second time (attempt 1) and REPLACEs the baseline with whatever that returned, printing the first-version line. -/
def process_artifact (entry : Option String × Option String)
    (net : String → String → Nat → ResolveResult) (faults : Nat → DbFault) (s : St) :
    Except St St :=
  if !pyTruthy entry.1 || !pyTruthy entry.2 then
    .ok { s with out := s.out ++ ["Warning: Missing group_id or artifact_id in JSON."] }
  else
    let g := entry.1.getD ""
    let a := entry.2.getD ""
    match check_for_new_version g a (net g a) faults s with
    | .error sE => .error sE
    | .ok (new_version, s1) =>
      if pyTruthy new_version then
        let v := new_version.getD ""
        let s2 := { s1 with out := s1.out ++ ["- New version available for " ++ g ++ ":" ++ a ++ ": " ++ v] }
        match update_current_version_in_db g a (some v) faults s2 with
        | .error sE => .error sE
        | .ok s3 =>
          match get_current_version_from_db g a faults s3 with
          | .error sE => .error sE
          | .ok (prev, s4) =>
            let subject := "New Maven Artifact Version: " ++ g ++ ":" ++ a
            let body := "A new version (" ++ v ++ ") of " ++ g ++ ":" ++ a
              ++ " is available.\nPrevious version: " ++ pyStr prev
            .ok { s4 with out := s4.out ++ [subject, body],
                          notified := s4.notified ++ [(subject, body)] }
      else
        let s2 := { s1 with out := s1.out ++ ["- No new version available for " ++ g ++ ":" ++ a ++ "."] }
        match get_current_version_from_db g a faults s2 with
        | .error sE => .error sE
        | .ok (cur2, s3) =>
          if cur2.isNone then
            let res := get_latest_version (net g a 1) s3
            match update_current_version_in_db g a res.1 faults res.2 with
            | .error sE => .error sE
            | .ok s5 =>
              .ok { s5 with out := s5.out
                      ++ ["- First version added to database for " ++ g ++ ":" ++ a ++ ": " ++ pyStr res.1] }
          else
            .ok s3

/-- Embeds the whole for loop of main (src/main.py lines 156-189): each entry is processed in order; an uncaught exception from one iteration aborts the rest of the loop. -/
def main_loop (artifacts : List (Option String × Option String))
    (net : String → String → Nat → ResolveResult) (faults : Nat → DbFault) (s : St) :
    Except St St :=
  match artifacts with
  | [] => .ok s
  | e :: rest =>
    match process_artifact e net faults s with
    | .error sE => .error sE
    | .ok s1 => main_loop rest net faults s1

/-- Embeds main (src/main.py lines 143-189); named main_run because Lean reserves the name main.  Prints the current versions dump, loads the catalog and the email settings, exits early when the settings are falsy, prints the New Versions header and runs the loop. -/
def main_run (cat : CatalogLoad) (cfg : Option (List (String × String)))
    (net : String → String → Nat → ResolveResult) (faults : Nat → DbFault) (db0 : DB) :
    Except St St :=
  match print_current_versions faults (initSt db0) with
  | .error sE => .error sE
  | .ok s1 =>
    let loaded := load_artifacts_from_json cat
    let s2 := { s1 with out := s1.out ++ loaded.2 }
    let email_settings := load_email_settings cfg
    if !settingsTruthy email_settings then
      .ok { s2 with out := s2.out ++ ["Error: Email settings not found. Exiting."] }
    else
      main_loop loaded.1 net faults { s2 with out := s2.out ++ ["New Versions:"] }

/-! Helper lemmas about the store primitives. -/

lemma keyMatch_self (g a : String) (v : Option String) :
    keyMatch g a { group_id := g, artifact_id := a, version := v } = true := by
  simp [keyMatch]

lemma findRow_replaceRow (rows : List Row) (g a : String) (v : Option String) :
    findRow (replaceRow rows g a v) g a = some { group_id := g, artifact_id := a, version := v } := by
  induction rows with
  | nil =>
      show List.find? (keyMatch g a) [{ group_id := g, artifact_id := a, version := v }] = _
      rw [List.find?_cons_of_pos _ (keyMatch_self g a v)]
  | cons r t ih =>
      cases h : keyMatch g a r with
      | true => simpa [findRow, replaceRow, List.filter_cons, h] using ih
      | false =>
          simp only [findRow, replaceRow, List.filter_cons, h, Bool.not_false, if_true,
            List.cons_append] at ih ⊢
          rw [List.find?_cons_of_neg _ (by simp [h])]
          exact ih

lemma storedVersion_replaceRow (rows : List Row) (g a : String) (v : Option String) :
    storedVersion (replaceRow rows g a v) g a = v := by
  simp [storedVersion, findRow_replaceRow]

lemma filter_key_replaceRow (rows : List Row) (g a : String) (v : Option String) :
    (replaceRow rows g a v).filter (keyMatch g a) =
      [{ group_id := g, artifact_id := a, version := v }] := by
  induction rows with
  | nil => simp [replaceRow, List.filter_cons, keyMatch_self]
  | cons r t ih =>
      cases h : keyMatch g a r with
      | true => simpa [replaceRow, List.filter_cons, h] using ih
      | false => simpa [replaceRow, List.filter_cons, h] using ih

/-! Evaluation lemmas for the database and resolver primitives. -/

lemma get_cv_noFault (g a : String) (s : St) :
    get_current_version_from_db g a noFault s =
      .ok (storedVersion s.db.rows g a,
        { s with db := { schema := true, rows := s.db.rows }, dbops := s.dbops + 1 }) := rfl

lemma get_cv_ok (g a : String) (faults : Nat → DbFault) (s : St)
    (h : faults s.dbops = DbFault.ok) :
    get_current_version_from_db g a faults s =
      .ok (storedVersion s.db.rows g a,
        { s with db := { schema := true, rows := s.db.rows }, dbops := s.dbops + 1 }) := by
  unfold get_current_version_from_db
  rw [h]

lemma upd_noFault (g a : String) (v : Option String) (s : St) :
    update_current_version_in_db g a v noFault s =
      .ok { s with db := { schema := true, rows := replaceRow s.db.rows g a v },
                   dbops := s.dbops + 1, upserts := s.upserts + 1 } := rfl

lemma glv_fst (r : ResolveResult) (s : St) : (get_latest_version r s).1 = resolvedText r := by
  cases r <;> rfl

lemma glv_rcalls (r : ResolveResult) (s : St) : (get_latest_version r s).2.rcalls = s.rcalls + 1 := by
  cases r <;> rfl

lemma glv_db (r : ResolveResult) (s : St) : (get_latest_version r s).2.db = s.db := by
  cases r <;> rfl

lemma glv_emails (r : ResolveResult) (s : St) : (get_latest_version r s).2.emails = s.emails := by
  cases r <;> rfl

lemma glv_notified (r : ResolveResult) (s : St) : (get_latest_version r s).2.notified = s.notified := by
  cases r <;> rfl

lemma glv_upserts (r : ResolveResult) (s : St) : (get_latest_version r s).2.upserts = s.upserts := by
  cases r <;> rfl

lemma glv_dbops (r : ResolveResult) (s : St) : (get_latest_version r s).2.dbops = s.dbops := by
  cases r <;> rfl

/-! Claim C1. -/

/-- C1: the claim states that when resolving the latest version fails, processing leaves the store unchanged, including when no prior record existed.  Evaluating the code on an initialized empty store with a resolver failing on both attempts refutes the no-prior-record case: main (src/main.py lines 186-188) fetches again and REPLACEs the baseline with the None result, so a row (org.example, lib, NULL) appears where no record existed, and one REPLACE write is executed. -/
theorem resolution_failure_inserts_null_row :
    (finalSt (process_artifact (some "org.example", some "lib")
        (fun _ _ _ => .fetchError "connection refused") noFault
        (initSt { schema := true, rows := [] }))).db.rows
      = [{ group_id := "org.example", artifact_id := "lib", version := none }] ∧
    (finalSt (process_artifact (some "org.example", some "lib")
        (fun _ _ _ => .fetchError "connection refused") noFault
        (initSt { schema := true, rows := [] }))).upserts = 1 := by
  constructor
  · rfl
  · rfl

/-! Claim C2. -/

/-- C2 counterexample: the claim as stated fails when the prior record holds the empty string.  With a stored baseline of the empty string and a resolver that succeeds with 1.0, the truthiness tests of check_for_new_version (src/main.py lines 80-83) are all falsy, so no write happens: the record still holds the empty string, not the just-resolved 1.0. -/
theorem empty_string_baseline_not_updated :
    storedVersion (finalSt (process_artifact (some "org.example", some "lib")
        (fun _ _ _ => .found (some "1.0")) noFault
        (initSt { schema := true,
                  rows := [{ group_id := "org.example", artifact_id := "lib", version := some "" }] }))).db.rows
      "org.example" "lib" = some "" ∧
    ¬ storedVersion (finalSt (process_artifact (some "org.example", some "lib")
        (fun _ _ _ => .found (some "1.0")) noFault
        (initSt { schema := true,
                  rows := [{ group_id := "org.example", artifact_id := "lib", version := some "" }] }))).db.rows
      "org.example" "lib" = some "1.0" := by
  constructor
  · rfl
  · decide

/-- C2 (amended): for an artifact whose resolution succeeds with a nonempty version v, and whose prior stored version is not the empty string, the store record after processing equals v — whether the prior state was absent, a NULL row, a different version, or v itself. -/
theorem resolved_version_persisted (db : DB) (g a v : String)
    (net : String → String → Nat → ResolveResult) (hg : g ≠ "") (ha : a ≠ "") (hv : v ≠ "")
    (hnet : net g a 0 = .found (some v))
    (hprior : storedVersion db.rows g a ≠ some "") :
    storedVersion (finalSt (process_artifact (some g, some a) net noFault (initSt db))).db.rows g a
      = some v := by
  rcases hc : storedVersion db.rows g a with _ | w
  · simp [process_artifact, check_for_new_version, get_cv_noFault, upd_noFault,
          glv_fst, glv_db, hnet, resolvedText, pyTruthy, hg, ha, hv, hc, finalSt, initSt,
          storedVersion_replaceRow]
  · have hw : w ≠ "" := by
      intro hw0
      exact hprior (by rw [hc, hw0])
    by_cases hvw : v = w
    · subst hvw
      simp [process_artifact, check_for_new_version, get_cv_noFault, upd_noFault,
            glv_fst, glv_db, hnet, resolvedText, pyTruthy, hg, ha, hv, hc, finalSt, initSt,
            storedVersion_replaceRow]
    · simp [process_artifact, check_for_new_version, get_cv_noFault, upd_noFault,
            glv_fst, glv_db, hnet, resolvedText, pyTruthy, hg, ha, hv, hw, hvw, hc, finalSt, initSt,
            storedVersion_replaceRow]

/-- C2 witness: the amended theorem applied to a first-seen run on an empty store with resolver answering 3.1.0. -/
theorem resolved_version_persisted_witness :
    storedVersion (finalSt (process_artifact (some "org.example", some "lib")
        (fun _ _ _ => .found (some "3.1.0")) noFault
        (initSt { schema := true, rows := [] }))).db.rows "org.example" "lib" = some "3.1.0" :=
  resolved_version_persisted { schema := true, rows := [] } "org.example" "lib" "3.1.0"
    (fun _ _ _ => .found (some "3.1.0")) (by decide) (by decide) (by decide) rfl (by decide)

/-! Claim C3. -/

/-- C3 counterexample: in the claim's concrete scenario (empty store, catalog org.example:lib, resolver answering 3.1.0) the claim asserts one notification is dispatched to the notification channel.  The run hands zero messages to the email channel — the send_email call at src/main.py line 178 is commented out — while the notification payload is printed once. -/
theorem concrete_scenario_no_email_dispatched :
    (finalSt (main_run (.loaded [(some "org.example", some "lib")])
        (some [("receiver_email", "ops@example.com")])
        (fun _ _ _ => .found (some "3.1.0")) noFault { schema := false, rows := [] })).emails = [] ∧
    (finalSt (main_run (.loaded [(some "org.example", some "lib")])
        (some [("receiver_email", "ops@example.com")])
        (fun _ _ _ => .found (some "3.1.0")) noFault { schema := false, rows := [] })).notified
      = [("New Maven Artifact Version: org.example:lib",
          "A new version (3.1.0) of org.example:lib is available.\nPrevious version: 3.1.0")] := by
  constructor
  · rfl
  · rfl

/-- C3 (amended): processing one artifact never hands a message to the email channel (the dispatch call is commented out), and prints exactly one notification payload — subject naming group:name and body containing the newly resolved version — when the code takes a first-seen or upgraded transition (truthy resolved version that differs from a truthy baseline, or baseline read back as None), and zero payloads on every other outcome (unchanged, failed, or empty-string cases). -/
theorem notification_payload_printed (db : DB) (g a : String)
    (net : String → String → Nat → ResolveResult) (hg : g ≠ "") (ha : a ≠ "") :
    (finalSt (process_artifact (some g, some a) net noFault (initSt db))).emails = [] ∧
    (finalSt (process_artifact (some g, some a) net noFault (initSt db))).notified =
      (if pyTruthy (resolvedText (net g a 0)) &&
          ((pyTruthy (storedVersion db.rows g a)
              && (resolvedText (net g a 0) != storedVersion db.rows g a))
            || (storedVersion db.rows g a).isNone) then
        [("New Maven Artifact Version: " ++ g ++ ":" ++ a,
          "A new version (" ++ (resolvedText (net g a 0)).getD "" ++ ") of " ++ g ++ ":" ++ a
            ++ " is available.\nPrevious version: " ++ (resolvedText (net g a 0)).getD "")]
      else []) := by
  rcases hc : storedVersion db.rows g a with _ | w
  · rcases hl : resolvedText (net g a 0) with _ | v
    · simp [process_artifact, check_for_new_version, get_cv_noFault, upd_noFault,
            glv_fst, glv_db, glv_emails, glv_notified, hl, pyTruthy, hg, ha, hc, finalSt, initSt,
            storedVersion_replaceRow, pyStr]
    · by_cases hv : v = ""
      · subst hv
        simp [process_artifact, check_for_new_version, get_cv_noFault, upd_noFault,
              glv_fst, glv_db, glv_emails, glv_notified, hl, pyTruthy, hg, ha, hc, finalSt, initSt,
              storedVersion_replaceRow, pyStr]
      · simp [process_artifact, check_for_new_version, get_cv_noFault, upd_noFault,
              glv_fst, glv_db, glv_emails, glv_notified, hl, pyTruthy, hg, ha, hv, hc, finalSt, initSt,
              storedVersion_replaceRow, pyStr]
  · rcases hl : resolvedText (net g a 0) with _ | v
    · simp [process_artifact, check_for_new_version, get_cv_noFault, upd_noFault,
            glv_fst, glv_db, glv_emails, glv_notified, hl, pyTruthy, hg, ha, hc, finalSt, initSt,
            storedVersion_replaceRow, pyStr]
    · by_cases hv : v = ""
      · subst hv
        simp [process_artifact, check_for_new_version, get_cv_noFault, upd_noFault,
              glv_fst, glv_db, glv_emails, glv_notified, hl, pyTruthy, hg, ha, hc, finalSt, initSt,
              storedVersion_replaceRow, pyStr]
      · by_cases hw : w = ""
        · subst hw
          simp [process_artifact, check_for_new_version, get_cv_noFault, upd_noFault,
                glv_fst, glv_db, glv_emails, glv_notified, hl, pyTruthy, hg, ha, hv, hc, finalSt, initSt,
                storedVersion_replaceRow, pyStr]
        · by_cases hvw : v = w
          · subst hvw
            simp [process_artifact, check_for_new_version, get_cv_noFault, upd_noFault,
                  glv_fst, glv_db, glv_emails, glv_notified, hl, pyTruthy, hg, ha, hv, hc, finalSt, initSt,
                  storedVersion_replaceRow, pyStr]
          · simp [process_artifact, check_for_new_version, get_cv_noFault, upd_noFault,
                  glv_fst, glv_db, glv_emails, glv_notified, hl, pyTruthy, hg, ha, hv, hw, hvw, hc,
                  finalSt, initSt, storedVersion_replaceRow, pyStr]

/-- C3 witness: the amended theorem applied to an upgraded transition (baseline 1.0, resolver answering 2.0): zero emails and exactly one printed payload. -/
theorem notification_payload_printed_witness :
    (finalSt (process_artifact (some "org.example", some "lib")
        (fun _ _ _ => .found (some "2.0")) noFault
        (initSt { schema := true,
                  rows := [{ group_id := "org.example", artifact_id := "lib", version := some "1.0" }] }))).emails
      = [] ∧
    (finalSt (process_artifact (some "org.example", some "lib")
        (fun _ _ _ => .found (some "2.0")) noFault
        (initSt { schema := true,
                  rows := [{ group_id := "org.example", artifact_id := "lib", version := some "1.0" }] }))).notified
      = [("New Maven Artifact Version: org.example:lib",
          "A new version (2.0) of org.example:lib is available.\nPrevious version: 2.0")] :=
  notification_payload_printed
    { schema := true,
      rows := [{ group_id := "org.example", artifact_id := "lib", version := some "1.0" }] }
    "org.example" "lib" (fun _ _ _ => .found (some "2.0")) (by decide) (by decide)

/-! Claim C4. -/

/-- C4: the claim states that the upgraded notification body's previous-version field holds the old baseline and differs from the new version.  Evaluating the code with baseline 1.0 and resolved version 2.0: the body is built at src/main.py line 176 from a database read performed after the REPLACE of line 169, so it reports Previous version: 2.0 — the just-resolved version, equal to the new-version field, not the old baseline 1.0. -/
theorem upgrade_body_previous_is_new_version :
    (finalSt (process_artifact (some "org.example", some "lib")
        (fun _ _ _ => .found (some "2.0")) noFault
        (initSt { schema := true,
                  rows := [{ group_id := "org.example", artifact_id := "lib", version := some "1.0" }] }))).out
      = ["- New version available for org.example:lib: 2.0",
         "New Maven Artifact Version: org.example:lib",
         "A new version (2.0) of org.example:lib is available.\nPrevious version: 2.0"] := by
  rfl

/-! Claim C5. -/

/-- C5 counterexample: with a stored baseline 1.0, a failed resolution and an unchanged resolution both make main print the same per-artifact outcome line (No new version available); the failure differs only by the low-level error line printed inside get_latest_version, so the per-artifact outcome is not reported distinctly as a failure. -/
theorem failure_reported_with_unchanged_line :
    (finalSt (process_artifact (some "org.example", some "lib")
        (fun _ _ _ => .fetchError "timeout") noFault
        (initSt { schema := true,
                  rows := [{ group_id := "org.example", artifact_id := "lib", version := some "1.0" }] }))).out
      = ["Error fetching metadata: timeout", "- No new version available for org.example:lib."] ∧
    (finalSt (process_artifact (some "org.example", some "lib")
        (fun _ _ _ => .found (some "1.0")) noFault
        (initSt { schema := true,
                  rows := [{ group_id := "org.example", artifact_id := "lib", version := some "1.0" }] }))).out
      = ["- No new version available for org.example:lib."] := by
  constructor
  · rfl
  · rfl

/-- C5 (amended): each artifact takes exactly one processing path, but for an artifact with a stored baseline the failed-resolution run prints the resolver's error line with the causing reason followed by the same No-new-version outcome line that the unchanged run prints: the per-artifact outcome line does not distinguish a failure from an unchanged result. -/
theorem failure_vs_unchanged_report (db : DB) (g a w e : String) (hg : g ≠ "") (ha : a ≠ "")
    (hw : storedVersion db.rows g a = some w) :
    (finalSt (process_artifact (some g, some a) (fun _ _ _ => .fetchError e) noFault (initSt db))).out
      = ["Error fetching metadata: " ++ e,
         "- No new version available for " ++ g ++ ":" ++ a ++ "."] ∧
    (finalSt (process_artifact (some g, some a) (fun _ _ _ => .found (some w)) noFault (initSt db))).out
      = ["- No new version available for " ++ g ++ ":" ++ a ++ "."] := by
  constructor
  · simp [process_artifact, check_for_new_version, get_cv_noFault, upd_noFault,
          get_latest_version, pyTruthy, hg, ha, hw, finalSt, initSt]
  · by_cases hwt : w = ""
    · subst hwt
      simp [process_artifact, check_for_new_version, get_cv_noFault, upd_noFault,
            get_latest_version, pyTruthy, hg, ha, hw, finalSt, initSt]
    · simp [process_artifact, check_for_new_version, get_cv_noFault, upd_noFault,
            get_latest_version, pyTruthy, hg, ha, hw, hwt, finalSt, initSt]

/-- C5 witness: the amended theorem applied to a baseline of 2.0 with error reason timeout. -/
theorem failure_vs_unchanged_report_witness :
    (finalSt (process_artifact (some "org.example", some "lib")
        (fun _ _ _ => .fetchError "timeout") noFault
        (initSt { schema := true,
                  rows := [{ group_id := "org.example", artifact_id := "lib", version := some "2.0" }] }))).out
      = ["Error fetching metadata: timeout", "- No new version available for org.example:lib."] ∧
    (finalSt (process_artifact (some "org.example", some "lib")
        (fun _ _ _ => .found (some "2.0")) noFault
        (initSt { schema := true,
                  rows := [{ group_id := "org.example", artifact_id := "lib", version := some "2.0" }] }))).out
      = ["- No new version available for org.example:lib."] :=
  failure_vs_unchanged_report
    { schema := true,
      rows := [{ group_id := "org.example", artifact_id := "lib", version := some "2.0" }] }
    "org.example" "lib" "2.0" "timeout" (by decide) (by decide) rfl

/-! Claim C6. -/

/-- C6 counterexample: for an artifact with no stored record whose resolution fails, one reconciliation performs two resolver calls, not the claimed exactly one — check_for_new_version calls get_latest_version (src/main.py line 78) and main retries it at line 187. -/
theorem second_resolver_call_after_failed_first_seen :
    (finalSt (process_artifact (some "org.example", some "lib")
        (fun _ _ _ => .fetchError "connection refused") noFault
        (initSt { schema := true, rows := [] }))).rcalls = 2 := by
  rfl

/-- C6 (amended): one reconciliation of an artifact calls the resolver exactly once when a stored record reads back or the first call yields a truthy version, and exactly twice — a second attempt at src/main.py line 187 — when the stored baseline reads back as None and the first call yields no truthy version. -/
theorem resolver_call_count (db : DB) (g a : String)
    (net : String → String → Nat → ResolveResult) (hg : g ≠ "") (ha : a ≠ "") :
    (finalSt (process_artifact (some g, some a) net noFault (initSt db))).rcalls =
      if storedVersion db.rows g a = none ∧ pyTruthy (resolvedText (net g a 0)) = false then 2
      else 1 := by
  rcases hc : storedVersion db.rows g a with _ | w
  · rcases hl : resolvedText (net g a 0) with _ | v
    · simp [process_artifact, check_for_new_version, get_cv_noFault, upd_noFault,
            glv_fst, glv_rcalls, glv_db, glv_emails, glv_notified, glv_upserts, glv_dbops,
            hl, pyTruthy, hg, ha, hc, finalSt, initSt]
    · by_cases hv : v = ""
      · subst hv
        simp [process_artifact, check_for_new_version, get_cv_noFault, upd_noFault,
              glv_fst, glv_rcalls, glv_db, glv_emails, glv_notified, glv_upserts, glv_dbops,
              hl, pyTruthy, hg, ha, hc, finalSt, initSt]
      · simp [process_artifact, check_for_new_version, get_cv_noFault, upd_noFault,
              glv_fst, glv_rcalls, glv_db, glv_emails, glv_notified, glv_upserts, glv_dbops,
              hl, pyTruthy, hg, ha, hc, hv, finalSt, initSt]
  · rcases hl : resolvedText (net g a 0) with _ | v
    · simp [process_artifact, check_for_new_version, get_cv_noFault, upd_noFault,
            glv_fst, glv_rcalls, glv_db, glv_emails, glv_notified, glv_upserts, glv_dbops,
            hl, pyTruthy, hg, ha, hc, finalSt, initSt]
    · by_cases hv : v = ""
      · subst hv
        simp [process_artifact, check_for_new_version, get_cv_noFault, upd_noFault,
              glv_fst, glv_rcalls, glv_db, glv_emails, glv_notified, glv_upserts, glv_dbops,
              hl, pyTruthy, hg, ha, hc, finalSt, initSt]
      · by_cases hw : w = ""
        · subst hw
          simp [process_artifact, check_for_new_version, get_cv_noFault, upd_noFault,
                glv_fst, glv_rcalls, glv_db, glv_emails, glv_notified, glv_upserts, glv_dbops,
                hl, pyTruthy, hg, ha, hv, hc, finalSt, initSt]
        · by_cases hvw : v = w
          · subst hvw
            simp [process_artifact, check_for_new_version, get_cv_noFault, upd_noFault,
                  glv_fst, glv_rcalls, glv_db, glv_emails, glv_notified, glv_upserts, glv_dbops,
                  hl, pyTruthy, hg, ha, hv, hc, finalSt, initSt]
          · simp [process_artifact, check_for_new_version, get_cv_noFault, upd_noFault,
                  glv_fst, glv_rcalls, glv_db, glv_emails, glv_notified, glv_upserts, glv_dbops,
                  hl, pyTruthy, hg, ha, hv, hw, hvw, hc, finalSt, initSt]

/-- C6 witness: the amended theorem applied to an upgraded run (baseline 1.0, resolver answering 2.0), where exactly one resolver call happens. -/
theorem resolver_call_count_witness :
    (finalSt (process_artifact (some "org.example", some "lib")
        (fun _ _ _ => .found (some "2.0")) noFault
        (initSt { schema := true,
                  rows := [{ group_id := "org.example", artifact_id := "lib", version := some "1.0" }] }))).rcalls
      = 1 :=
  resolver_call_count
    { schema := true,
      rows := [{ group_id := "org.example", artifact_id := "lib", version := some "1.0" }] }
    "org.example" "lib" (fun _ _ _ => .found (some "2.0")) (by decide) (by decide)

/-! Claim C7. -/

/-- Shape of the store after one reconciliation whose resolver consistently answers some v: the schema exists and the record for the artifact holds some version u that cannot trigger a write on a rerun (u equals v, or u or v is the empty string, both treated as falsy by the code). -/
lemma run1_shape (db : DB) (g a v : String)
    (net : String → String → Nat → ResolveResult) (hg : g ≠ "") (ha : a ≠ "")
    (hnet : ∀ k, net g a k = .found (some v)) :
    (finalSt (process_artifact (some g, some a) net noFault (initSt db))).db.schema = true ∧
    ∃ u, storedVersion (finalSt (process_artifact (some g, some a) net noFault (initSt db))).db.rows g a
          = some u ∧ (u = v ∨ u = "" ∨ v = "") := by
  rcases hc : storedVersion db.rows g a with _ | w
  · by_cases hv : v = ""
    · subst hv
      simp [process_artifact, check_for_new_version, get_cv_noFault, upd_noFault,
            get_latest_version, hnet, pyTruthy, hg, ha, hc, finalSt, initSt,
            storedVersion_replaceRow]
    · simp [process_artifact, check_for_new_version, get_cv_noFault, upd_noFault,
            get_latest_version, hnet, pyTruthy, hg, ha, hv, hc, finalSt, initSt,
            storedVersion_replaceRow]
  · by_cases hv : v = ""
    · subst hv
      by_cases hw : w = ""
      · subst hw
        simp [process_artifact, check_for_new_version, get_cv_noFault, upd_noFault,
              get_latest_version, hnet, pyTruthy, hg, ha, hc, finalSt, initSt,
              storedVersion_replaceRow]
      · simp [process_artifact, check_for_new_version, get_cv_noFault, upd_noFault,
              get_latest_version, hnet, pyTruthy, hg, ha, hw, hc, finalSt, initSt,
              storedVersion_replaceRow]
    · by_cases hw : w = ""
      · subst hw
        simp [process_artifact, check_for_new_version, get_cv_noFault, upd_noFault,
              get_latest_version, hnet, pyTruthy, hg, ha, hv, hc, finalSt, initSt,
              storedVersion_replaceRow]
      · by_cases hvw : v = w
        · subst hvw
          simp [process_artifact, check_for_new_version, get_cv_noFault, upd_noFault,
                get_latest_version, hnet, pyTruthy, hg, ha, hv, hc, finalSt, initSt,
                storedVersion_replaceRow]
        · simp [process_artifact, check_for_new_version, get_cv_noFault, upd_noFault,
                get_latest_version, hnet, pyTruthy, hg, ha, hv, hw, hvw, hc, finalSt, initSt,
                storedVersion_replaceRow]

/-- Rerun on a store whose record already satisfies the no-write condition: the run prints only the No-new-version line, performs no resolver retry and no REPLACE, and returns the store untouched. -/
lemma run2_unchanged (rows : List Row) (g a v u : String)
    (net : String → String → Nat → ResolveResult) (hg : g ≠ "") (ha : a ≠ "")
    (hnet : ∀ k, net g a k = .found (some v))
    (hu : storedVersion rows g a = some u) (huv : u = v ∨ u = "" ∨ v = "") :
    process_artifact (some g, some a) net noFault (initSt { schema := true, rows := rows }) =
      .ok { db := { schema := true, rows := rows },
            out := ["- No new version available for " ++ g ++ ":" ++ a ++ "."],
            emails := [], notified := [], upserts := 0, rcalls := 1, dbops := 2 } := by
  by_cases hv : v = ""
  · subst hv
    simp [process_artifact, check_for_new_version, get_cv_noFault, upd_noFault,
          get_latest_version, hnet, pyTruthy, hg, ha, hu, initSt]
  · rcases huv with huv | huv | huv
    · subst huv
      simp [process_artifact, check_for_new_version, get_cv_noFault, upd_noFault,
            get_latest_version, hnet, pyTruthy, hg, ha, hu, hv, initSt]
    · subst huv
      simp [process_artifact, check_for_new_version, get_cv_noFault, upd_noFault,
            get_latest_version, hnet, pyTruthy, hg, ha, hu, hv, initSt]
    · exact absurd huv hv

/-- C7: reconciliation is idempotent — rerunning an artifact while the resolver keeps answering the same version some v leaves the database byte-identical to its state after the first run, performs no REPLACE write, prints no notification payload, and reports only the No-new-version (unchanged) outcome line. -/
theorem reconciliation_idempotent (db : DB) (g a v : String)
    (net : String → String → Nat → ResolveResult) (hg : g ≠ "") (ha : a ≠ "")
    (hnet : ∀ k, net g a k = .found (some v)) :
    (finalSt (process_artifact (some g, some a) net noFault
        (initSt (finalSt (process_artifact (some g, some a) net noFault (initSt db))).db))).db
      = (finalSt (process_artifact (some g, some a) net noFault (initSt db))).db ∧
    (finalSt (process_artifact (some g, some a) net noFault
        (initSt (finalSt (process_artifact (some g, some a) net noFault (initSt db))).db))).upserts
      = 0 ∧
    (finalSt (process_artifact (some g, some a) net noFault
        (initSt (finalSt (process_artifact (some g, some a) net noFault (initSt db))).db))).notified
      = [] ∧
    (finalSt (process_artifact (some g, some a) net noFault
        (initSt (finalSt (process_artifact (some g, some a) net noFault (initSt db))).db))).out
      = ["- No new version available for " ++ g ++ ":" ++ a ++ "."] := by
  obtain ⟨hschema, u, hsv, huv⟩ := run1_shape db g a v net hg ha hnet
  rcases hdb : (finalSt (process_artifact (some g, some a) net noFault (initSt db))).db with ⟨b, rows⟩
  rw [hdb] at hschema
  subst hschema
  rw [hdb] at hsv
  rw [run2_unchanged rows g a v u net hg ha hnet hsv huv]
  simp [finalSt]

/-- C7 witness: the idempotence theorem applied to an empty store with the resolver constantly answering 3.1.0 — the second run changes nothing. -/
theorem reconciliation_idempotent_witness :
    (finalSt (process_artifact (some "org.example", some "lib")
        (fun _ _ _ => .found (some "3.1.0")) noFault
        (initSt (finalSt (process_artifact (some "org.example", some "lib")
            (fun _ _ _ => .found (some "3.1.0")) noFault
            (initSt { schema := true, rows := [] }))).db))).db
      = (finalSt (process_artifact (some "org.example", some "lib")
            (fun _ _ _ => .found (some "3.1.0")) noFault
            (initSt { schema := true, rows := [] }))).db ∧
    (finalSt (process_artifact (some "org.example", some "lib")
        (fun _ _ _ => .found (some "3.1.0")) noFault
        (initSt (finalSt (process_artifact (some "org.example", some "lib")
            (fun _ _ _ => .found (some "3.1.0")) noFault
            (initSt { schema := true, rows := [] }))).db))).upserts = 0 ∧
    (finalSt (process_artifact (some "org.example", some "lib")
        (fun _ _ _ => .found (some "3.1.0")) noFault
        (initSt (finalSt (process_artifact (some "org.example", some "lib")
            (fun _ _ _ => .found (some "3.1.0")) noFault
            (initSt { schema := true, rows := [] }))).db))).notified = [] ∧
    (finalSt (process_artifact (some "org.example", some "lib")
        (fun _ _ _ => .found (some "3.1.0")) noFault
        (initSt (finalSt (process_artifact (some "org.example", some "lib")
            (fun _ _ _ => .found (some "3.1.0")) noFault
            (initSt { schema := true, rows := [] }))).db))).out
      = ["- No new version available for org.example:lib."] :=
  reconciliation_idempotent { schema := true, rows := [] } "org.example" "lib" "3.1.0"
    (fun _ _ _ => .found (some "3.1.0")) (by decide) (by decide) (fun _ => rfl)

/-! Claim C8. -/

/-- C8 counterexample: the read-only enumeration does not self-create the schema — print_current_versions (src/main.py lines 123-141) has no CREATE TABLE IF NOT EXISTS, so on a store that was never created the SELECT fails with no such table; the caught error is printed and no dump of records is produced. -/
theorem enumeration_error_on_missing_schema :
    print_current_versions noFault (initSt { schema := false, rows := [] })
      = .ok { db := { schema := false, rows := [] },
              out := ["Database error: no such table: versions"],
              emails := [], notified := [], upserts := 0, rcalls := 0, dbops := 1 } := by
  rfl

/-- C8 (amended): get and upsert self-create the schema and succeed without error on a store that does not yet exist (get answers None, upsert leaves exactly the written record); the enumeration succeeds on an initialized store, even an empty one, but on a never-created store it reports a database error instead of a dump because it does not self-create the schema. -/
theorem store_self_init (g a : String) (v : Option String) :
    (∃ s1, get_current_version_from_db g a noFault (initSt { schema := false, rows := [] })
        = .ok (none, s1) ∧ s1.db.schema = true ∧ s1.out = []) ∧
    (∃ s2, update_current_version_in_db g a v noFault (initSt { schema := false, rows := [] })
        = .ok s2 ∧ s2.db.schema = true ∧
        s2.db.rows = [{ group_id := g, artifact_id := a, version := v }] ∧ s2.out = []) ∧
    (∃ s3, print_current_versions noFault (initSt { schema := false, rows := [] }) = .ok s3 ∧
        s3.out = ["Database error: no such table: versions"]) ∧
    (∃ s4, print_current_versions noFault (initSt { schema := true, rows := [] }) = .ok s4 ∧
        s4.out = ["No artifact versions found in the database.", ""]) := by
  refine ⟨?_, ?_, ?_, ?_⟩
  · exact ⟨_, rfl, rfl, rfl⟩
  · exact ⟨_, rfl, rfl, rfl, rfl⟩
  · exact ⟨_, rfl, rfl⟩
  · exact ⟨_, rfl, rfl⟩

/-! Claim C9. -/

/-- C9: the claim states that a storage fault on one artifact never aborts the batch.  Evaluating a batch of three artifacts where opening the database connection for the second artifact's get raises sqlite3.Error: the except clause of get_current_version_from_db prints the error, but its finally clause reads the unbound local conn, so an UnboundLocalError escapes main — the run aborts, the first artifact is persisted, and the third artifact is never processed (no record, no output line). -/
theorem connect_fault_aborts_batch :
    runOk (main_run (.loaded [(some "g1", some "a1"), (some "g2", some "a2"), (some "g3", some "a3")])
        (some [("sender_email", "ops@example.com")])
        (fun g _ _ => if g == "g1" then .found (some "1.0")
          else if g == "g3" then .found (some "3.0") else .fetchError "timeout")
        (fun n => if n == 4 then .connectFail "unable to open database file" else .ok)
        { schema := false, rows := [] }) = false ∧
    storedVersion (finalSt (main_run
        (.loaded [(some "g1", some "a1"), (some "g2", some "a2"), (some "g3", some "a3")])
        (some [("sender_email", "ops@example.com")])
        (fun g _ _ => if g == "g1" then .found (some "1.0")
          else if g == "g3" then .found (some "3.0") else .fetchError "timeout")
        (fun n => if n == 4 then .connectFail "unable to open database file" else .ok)
        { schema := false, rows := [] })).db.rows "g1" "a1" = some "1.0" ∧
    storedVersion (finalSt (main_run
        (.loaded [(some "g1", some "a1"), (some "g2", some "a2"), (some "g3", some "a3")])
        (some [("sender_email", "ops@example.com")])
        (fun g _ _ => if g == "g1" then .found (some "1.0")
          else if g == "g3" then .found (some "3.0") else .fetchError "timeout")
        (fun n => if n == 4 then .connectFail "unable to open database file" else .ok)
        { schema := false, rows := [] })).db.rows "g3" "a3" = none ∧
    (finalSt (main_run
        (.loaded [(some "g1", some "a1"), (some "g2", some "a2"), (some "g3", some "a3")])
        (some [("sender_email", "ops@example.com")])
        (fun g _ _ => if g == "g1" then .found (some "1.0")
          else if g == "g3" then .found (some "3.0") else .fetchError "timeout")
        (fun n => if n == 4 then .connectFail "unable to open database file" else .ok)
        { schema := false, rows := [] })).out
      = ["Database error: no such table: versions", "New Versions:",
         "- New version available for g1:a1: 1.0",
         "New Maven Artifact Version: g1:a1",
         "A new version (1.0) of g1:a1 is available.\nPrevious version: 1.0",
         "Database error: unable to open database file"] := by
  refine ⟨rfl, rfl, rfl, rfl⟩

/-! Claim C10. -/

/-- C10: store round trip — when the REPLACE of an upsert and the subsequent SELECT of a get both run without a storage fault, the get returns exactly the version just written and the store holds exactly one row for that (group, name) key. -/
theorem store_roundtrip (s : St) (g a v : String) (faults : Nat → DbFault)
    (h1 : faults s.dbops = DbFault.ok) (h2 : faults (s.dbops + 1) = DbFault.ok) :
    ∃ s1 s2, update_current_version_in_db g a (some v) faults s = .ok s1 ∧
      (s1.db.rows.filter (keyMatch g a)).length = 1 ∧
      get_current_version_from_db g a faults s1 = .ok (some v, s2) := by
  have hu : update_current_version_in_db g a (some v) faults s =
      .ok { s with db := { schema := true, rows := replaceRow s.db.rows g a (some v) },
                   dbops := s.dbops + 1, upserts := s.upserts + 1 } := by
    unfold update_current_version_in_db
    rw [h1]
  have hget := get_cv_ok g a faults
    ({ s with db := { schema := true, rows := replaceRow s.db.rows g a (some v) },
              dbops := s.dbops + 1, upserts := s.upserts + 1 } : St) h2
  simp only [storedVersion_replaceRow] at hget
  exact ⟨_, _, hu, by simp [filter_key_replaceRow], hget⟩

/-- C10 witness: the round-trip theorem applied to a fresh store and version 1.0 under the fault-free oracle. -/
theorem store_roundtrip_witness :
    ∃ s1 s2, update_current_version_in_db "org.example" "lib" (some "1.0") noFault
        (initSt { schema := false, rows := [] }) = .ok s1 ∧
      (s1.db.rows.filter (keyMatch "org.example" "lib")).length = 1 ∧
      get_current_version_from_db "org.example" "lib" noFault s1 = .ok (some "1.0", s2) :=
  store_roundtrip (initSt { schema := false, rows := [] }) "org.example" "lib" "1.0" noFault
    rfl rfl
